import Mathlib

/-!
# Verification of the container template engine

Shallow embedding of `scripts/template_engine.py` (class `TemplateEngine`):
YAML-like metadata values, the deep-merge used by inheritance resolution,
fuel-indexed inheritance resolution, parameter preparation and validation,
template generation, and template validation.

Conventions of the embedding:
* Python dicts are modelled as association lists with unique keys in
  insertion order (`AList`); `alSet` updates an existing key in place and
  appends a fresh key at the end, as CPython dicts do.
* Python exceptions are modelled by `Except EngineError`; each constructor
  of `EngineError` stands for one exception the code can raise.
* Filesystem, Jinja2 and `datetime.now()` are external to the repository
  and are passed in as explicit oracles (an existence predicate, a render
  function, a timestamp string).
-/

set_option maxHeartbeats 1000000

namespace TemplateEngine

/-- A YAML/JSON-like value, the type of template metadata and parameter
values (`yaml.safe_load` output restricted to the shapes the engine
manipulates; floats are not modelled, `int` stands for numbers). -/
inductive Value where
  | str (s : String)
  | int (n : Int)
  | bool (b : Bool)
  | list (xs : List Value)
  | dict (kvs : List (String × Value))
  deriving Repr

/-- Association list standing for a Python `dict` with `str` keys. -/
abbrev AList := List (String × Value)

/-- `d[k]`-style lookup: first entry with the given key. -/
def alGet : AList → String → Option Value
  | [], _ => none
  | (k', v') :: t, k => if k' = k then some v' else alGet t k

/-- `d[k] = v`: update the first entry with key `k` in place, or append a
new entry at the end (CPython dict insertion-order semantics). -/
def alSet : AList → String → Value → AList
  | [], k, v => [(k, v)]
  | (k', v') :: t, k, v => if k' = k then (k, v) :: t else (k', v') :: alSet t k v

/-- `d.pop(k, None)`: drop the first entry with key `k`, if any. -/
def popKey : AList → String → AList
  | [], _ => []
  | (k', v') :: t, k => if k' = k then t else (k', v') :: popKey t k

/-- The list of keys of an association list. -/
def keys (l : AList) : List String := l.map Prod.fst

/-- Python `==` on values: structural equality except that `bool` and
`int` compare numerically (`True == 1` in Python, since `bool` is a
subclass of `int`).  Dict comparison is modelled in entry order; the
engine only ever compares scalars (enum membership checks). -/
def pyEq : Value → Value → Bool
  | .str a, .str b => a == b
  | .int a, .int b => a == b
  | .bool a, .bool b => a == b
  | .bool a, .int b => (if a then (1 : Int) else 0) == b
  | .int a, .bool b => a == (if b then (1 : Int) else 0)
  | .list xs, .list ys => pyEqList xs ys
  | .dict xs, .dict ys => pyEqDict xs ys
  | _, _ => false
where
  pyEqList : List Value → List Value → Bool
    | [], [] => true
    | x :: xs, y :: ys => pyEq x y && pyEqList xs ys
    | _, _ => false
  pyEqDict : List (String × Value) → List (String × Value) → Bool
    | [], [] => true
    | (k, x) :: xs, (l, y) :: ys => k == l && pyEq x y && pyEqDict xs ys
    | _, _ => false

/-- Python truthiness of a value (`if value:`). -/
def pyTruthy : Value → Bool
  | .str s => !s.isEmpty
  | .int n => n != 0
  | .bool b => b
  | .list xs => !xs.isEmpty
  | .dict kvs => !kvs.isEmpty

mutual

/-- `TemplateEngine._deep_merge` (lines 216–230): `result = base.copy()`,
then for each `key, value` in `override`, merge recursively when both the
current value and the override value are dicts, otherwise overwrite. -/
def mergeInto : AList → AList → AList
  | result, [] => result
  | result, (k, v) :: rest =>
    mergeInto (alSet result k (mergeVal (alGet result k) v)) rest
termination_by result o => sizeOf o
decreasing_by all_goals (simp_wf; try omega)

/-- The value stored for key `k` by one deep-merge step: recursive merge
when both the current value and the override value are dicts, the
override value otherwise (the `if` of lines 221–228). -/
def mergeVal : Option Value → Value → Value
  | some (Value.dict d1), Value.dict d2 => Value.dict (mergeInto d1 d2)
  | _, v => v
termination_by b v => sizeOf v
decreasing_by all_goals (simp_wf; try omega)

end

/-- The exceptions the engine can raise, one constructor per `raise`
site (or per host-language error reachable from the embedded code). -/
inductive EngineError where
  /-- `FileNotFoundError` from `load_template_metadata` (line 173). -/
  | fileNotFound (path : String)
  /-- `jsonschema.ValidationError` re-raised by `load_template_metadata`
  (lines 179–184). -/
  | schemaInvalid (path : String)
  /-- Python `RecursionError`: unbounded recursion of
  `resolve_inheritance` hitting the interpreter's recursion limit. -/
  | recursionLimit
  /-- `ValueError` from `_prepare_parameters` line 318:
  `Required parameter '<name>' not provided`. -/
  | missingRequired (name : String)
  /-- `ValueError` from the type checks of `_validate_parameter`
  (lines 333–342): `Parameter '<name>' must be a <type>`. -/
  | typeMismatch (name : String) (expected : String)
  /-- `ValueError` from the enum check (line 346). -/
  | enumViolation (name : String)
  /-- `ValueError` from the pattern check (lines 350–353). -/
  | patternMismatch (name : String) (pattern : String)
  /-- `ValueError` from the min/max checks (lines 357–360);
  `bound` is `"min"` or `"max"`. -/
  | rangeViolation (name : String) (bound : String)
  /-- Python `KeyError` from a mandatory dict subscript
  (e.g. `definition["type"]`, `metadata["name"]`). -/
  | keyError (key : String)
  /-- Python `TypeError`/`AttributeError` from using a value at the
  wrong shape (e.g. iterating a non-iterable file group). -/
  | typeError (msg : String)
  /-- `jinja2.TemplateError` re-raised by `generate_template`
  (line 292) with the message built there. -/
  | renderError (msg : String)
  /-- Model artefact: the declared regex pattern falls outside the
  regex fragment modelled here (no Python counterpart). -/
  | regexUnsupported (pattern : String)
  deriving Repr, DecidableEq

/-- `str(e)` of an engine error, as interpolated into messages. -/
def errMsg : EngineError → String
  | .fileNotFound p => "Template metadata not found: " ++ p ++ "/template.yaml"
  | .schemaInvalid p => "Invalid template metadata in " ++ p
  | .recursionLimit => "maximum recursion depth exceeded"
  | .missingRequired n => "Required parameter '" ++ n ++ "' not provided"
  | .typeMismatch n t => "Parameter '" ++ n ++ "' must be a " ++ t
  | .enumViolation n => "Parameter '" ++ n ++ "' must be one of the enum values"
  | .patternMismatch n p => "Parameter '" ++ n ++ "' doesn't match pattern " ++ p
  | .rangeViolation n b => "Parameter '" ++ n ++ "' violates bound " ++ b
  | .keyError k => "'" ++ k ++ "'"
  | .typeError m => m
  | .renderError m => m
  | .regexUnsupported p => "unsupported pattern " ++ p

/-- Does the string match `^[a-zA-Z_][a-zA-Z0-9_]*$`, the
`patternProperties` key pattern of the metadata schema (line 87)?
Parameter specs are schema-validated only for names matching it. -/
def identName (s : String) : Bool :=
  match s.data with
  | [] => false
  | c :: cs =>
    (c.isAlpha || c = '_') && cs.all (fun d => d.isAlphanum || d = '_')

/-- Is the value a string? -/
def isStrV : Value → Bool
  | .str _ => true
  | _ => false

/-- Is the value a list of strings? -/
def isStrListV : Value → Bool
  | .list xs => xs.all isStrV
  | _ => false

/-- Schema conformance of one parameter spec under `patternProperties`
(lines 86–110): specs whose name does not match the identifier pattern
are unconstrained; matching names must map to an object with required
`type` (from the five-value enum) and `description` (a string), with
the optional fields typed as declared. -/
def specOk (name : String) (pd : Value) : Bool :=
  if !identName name then true
  else
    match pd with
    | .dict d =>
      (match alGet d "type" with
        | some (.str t) =>
          ["string", "integer", "boolean", "array", "object"].contains t
        | _ => false) &&
      (match alGet d "description" with
        | some v => isStrV v
        | none => false) &&
      (match alGet d "required" with
        | some (.bool _) => true
        | some _ => false
        | none => true) &&
      (match alGet d "enum" with
        | some (.list _) => true
        | some _ => false
        | none => true) &&
      (match alGet d "pattern" with
        | some v => isStrV v
        | none => true) &&
      (match alGet d "min" with
        | some (.int _) => true
        | some _ => false
        | none => true) &&
      (match alGet d "max" with
        | some (.int _) => true
        | some _ => false
        | none => true)
    | _ => false

/-- Schema conformance of the `files` section (lines 112–122): an object
that must contain `dockerfile`; the enumerated properties are typed,
additional properties are unconstrained. -/
def filesOk : Value → Bool
  | .dict fs =>
    (alGet fs "dockerfile").isSome &&
    (match alGet fs "dockerfile" with
      | some v => isStrV v
      | none => true) &&
    (match alGet fs "compose" with
      | some v => isStrV v
      | none => true) &&
    (match alGet fs "config" with
      | some v => isStrListV v
      | none => true) &&
    (match alGet fs "scripts" with
      | some v => isStrListV v
      | none => true) &&
    (match alGet fs "docs" with
      | some v => isStrListV v
      | none => true)
  | _ => false

/-- Conformance of a loaded metadata dict to `_get_template_schema`
(lines 61–154), for the parts of the schema the engine's behaviour can
depend on: the four required string fields, the `category` enum, the
typing of `inherits`, `tags`, `platforms`, `parameters` and `files`.
The `dependencies`/`testing`/`registry` sections must be objects when
present; their inner typing is not load-bearing for any claim and is
not repeated here. -/
def schemaOkD (d : AList) : Bool :=
  (match alGet d "name" with
    | some v => isStrV v
    | none => false) &&
  (match alGet d "version" with
    | some v => isStrV v
    | none => false) &&
  (match alGet d "description" with
    | some v => isStrV v
    | none => false) &&
  (match alGet d "category" with
    | some (.str c) =>
      ["app", "database", "infrastructure", "microservice", "base"].contains c
    | _ => false) &&
  (match alGet d "author" with
    | some v => isStrV v
    | none => true) &&
  (match alGet d "license" with
    | some v => isStrV v
    | none => true) &&
  (match alGet d "inherits" with
    | some v => isStrV v
    | none => true) &&
  (match alGet d "tags" with
    | some v => isStrListV v
    | none => true) &&
  (match alGet d "platforms" with
    | some v => isStrListV v
    | none => true) &&
  (match alGet d "parameters" with
    | some (.dict ps) => ps.all (fun kv => specOk kv.1 kv.2)
    | some _ => false
    | none => true) &&
  (match alGet d "files" with
    | some v => filesOk v
    | none => true) &&
  (match alGet d "dependencies" with
    | some (.dict _) => true
    | some _ => false
    | none => true) &&
  (match alGet d "testing" with
    | some (.dict _) => true
    | some _ => false
    | none => true) &&
  (match alGet d "registry" with
    | some (.dict _) => true
    | some _ => false
    | none => true)

/-- A template store: maps a template path to the parsed contents of its
`template.yaml`, or `none` when no such file exists on disk. -/
abbrev Store := String → Option Value

/-- `TemplateEngine.load_template_metadata` (lines 156–188): missing
file raises `FileNotFoundError`; a schema violation raises
`ValidationError`; otherwise the parsed metadata dict is returned
(the memoization cache has no observable effect and is not modelled). -/
def loadTemplateMetadata (store : Store) (path : String) :
    Except EngineError AList :=
  match store path with
  | none => .error (.fileNotFound path)
  | some (.dict d) =>
    if schemaOkD d then .ok d else .error (.schemaInvalid path)
  | some _ => .error (.schemaInvalid path)

/-- `TemplateEngine.resolve_inheritance` (lines 190–214).  The Python
code recurses with no cycle guard; the `fuel` argument models the
interpreter's recursion limit, and exhausting it models Python's
`RecursionError`. -/
def resolveInheritance (store : Store) : Nat → String → Except EngineError AList
  | 0, _ => .error .recursionLimit
  | fuel + 1, path => do
    let metadata ← loadTemplateMetadata store path
    match alGet metadata "inherits" with
    | none => .ok metadata
    | some parentRef =>
      match parentRef with
      | .str parentPath => do
        let parentMetadata ← resolveInheritance store fuel parentPath
        .ok (popKey (mergeInto parentMetadata metadata) "inherits")
      | _ =>
        -- schema-invalid `inherits` cannot reach here: load rejects it
        .error (.typeError "inherits is not a string")

/-! ## A fragment of Python regular expressions

`_validate_parameter` calls `re.match(definition["pattern"], str(value))`
(line 350).  `re.match` anchors the match at the *start* of the string
only: it succeeds whenever some prefix of the string matches the
pattern.  We model the fragment of `re` syntax needed by the spec's
patterns: literal characters, `.`, character classes with ranges and
negation, the postfix operators `*`, `+`, `?`, a leading `^` (a no-op
under `re.match`) and a trailing `$` (anchors the match at the end of
the string; the `MULTILINE`/trailing-newline subtleties of Python's `$`
are outside the fragment). -/

/-- Regular-expression abstract syntax. -/
inductive Regex where
  | fail
  | eps
  | char (c : Char)
  | any
  | cls (neg : Bool) (ranges : List (Char × Char))
  | seq (r₁ r₂ : Regex)
  | alt (r₁ r₂ : Regex)
  | star (r : Regex)
  deriving Repr

/-- Does the regex accept the empty string? -/
def Regex.nullable : Regex → Bool
  | .fail => false
  | .eps => true
  | .char _ => false
  | .any => false
  | .cls _ _ => false
  | .seq a b => a.nullable && b.nullable
  | .alt a b => a.nullable || b.nullable
  | .star _ => true

/-- Character-class membership. -/
def clsMem (neg : Bool) (ranges : List (Char × Char)) (c : Char) : Bool :=
  let inside := ranges.any (fun p => p.1 ≤ c && c ≤ p.2)
  if neg then !inside else inside

/-- Brzozowski derivative of a regex by a character. -/
def Regex.deriv : Regex → Char → Regex
  | .fail, _ => .fail
  | .eps, _ => .fail
  | .char c, a => if c = a then .eps else .fail
  | .any, _ => .eps
  | .cls neg rs, a => if clsMem neg rs a then .eps else .fail
  | .seq r₁ r₂, a =>
    if r₁.nullable then .alt (.seq (r₁.deriv a) r₂) (r₂.deriv a)
    else .seq (r₁.deriv a) r₂
  | .alt r₁ r₂, a => .alt (r₁.deriv a) (r₂.deriv a)
  | .star r, a => .seq (r.deriv a) (.star r)

/-- Does the regex match the whole character list? -/
def rmatch (r : Regex) (s : List Char) : Bool :=
  (s.foldl Regex.deriv r).nullable

/-- Parse the items of a character class after `[` (and after a leading
`^`, handled by the caller) up to the closing `]`.  An `a-b` triple is
a range; any other character is a singleton range. -/
def parseClsItems : List Char → Option (List (Char × Char) × List Char)
  | [] => none
  | ']' :: rest => some ([], rest)
  | a :: '-' :: b :: rest =>
    if a = ']' ∨ b = ']' ∨ a = '\\' ∨ b = '\\' then none
    else do
      let (items, rest') ← parseClsItems rest
      some ((a, b) :: items, rest')
  | a :: rest =>
    if a = '\\' then none
    else do
      let (items, rest') ← parseClsItems rest
      some ((a, a) :: items, rest')

/-- Characters with a special meaning outside a character class; a bare
occurrence is outside the modelled fragment (or a syntax error). -/
def specialChar (c : Char) : Bool :=
  c ∈ ['*', '+', '?', '(', ')', '|', '\\', '^', '$', '[', ']', '{', '}']

/-- Parse one atom: a character class, `.`, or a literal character. -/
def parseAtom : List Char → Option (Regex × List Char)
  | [] => none
  | '[' :: '^' :: rest => do
    let (items, rest') ← parseClsItems rest
    some (.cls true items, rest')
  | '[' :: rest => do
    let (items, rest') ← parseClsItems rest
    some (.cls false items, rest')
  | '.' :: rest => some (.any, rest)
  | c :: rest => if specialChar c then none else some (.char c, rest)

/-- Apply a postfix operator, if present. -/
def applyPostfix (r : Regex) : List Char → Regex × List Char
  | '*' :: rest => (.star r, rest)
  | '+' :: rest => (.seq r (.star r), rest)
  | '?' :: rest => (.alt r .eps, rest)
  | rest => (r, rest)

/-- Parse a sequence of postfixed atoms, stopping at `$` or the end of
the pattern.  `fuel` dominates the input length, so it never runs out
on the inputs `parseRegex` supplies. -/
def parseSeq : Nat → List Char → Option (Regex × List Char)
  | 0, _ => none
  | _ + 1, [] => some (.eps, [])
  | _ + 1, '$' :: rest => some (.eps, '$' :: rest)
  | fuel + 1, cs => do
    let (a, rest) ← parseAtom cs
    let (a', rest') := applyPostfix a rest
    let (b, rest'') ← parseSeq fuel rest'
    some (.seq a' b, rest'')

/-- Parse a pattern string into the modelled fragment: a leading `^` is
dropped (it is a no-op for `re.match`) and a trailing `$` yields
end-anchoring.  Returns `none` for syntax outside the fragment. -/
def parseRegex (p : String) : Option (Regex × Bool) :=
  let cs := match p.data with
    | '^' :: t => t
    | t => t
  match parseSeq (cs.length + 1) cs with
  | some (r, []) => some (r, false)
  | some (r, ['$']) => some (r, true)
  | _ => none

/-- `re.match(pattern, s)` as a Boolean: with a trailing `$` the whole
string must match; otherwise it suffices that *some prefix* of `s`
matches the pattern (matches are anchored at the start only). -/
def pyReMatch (pr : Regex × Bool) (s : String) : Bool :=
  if pr.2 then rmatch pr.1 s.data
  else (List.range (s.length + 1)).any (fun k => rmatch pr.1 (s.data.take k))

/-- Matching "in full": the entire string matches the pattern's regex
(what the spec's `pattern check` sentence asks for). -/
def fullMatch (pr : Regex × Bool) (s : String) : Bool :=
  rmatch pr.1 s.data

/-! ## Parameter validation and preparation -/

/-- `isinstance(value, str)`. -/
def isInstStr : Value → Bool
  | .str _ => true
  | _ => false

/-- `isinstance(value, int)`.  In Python `bool` is a subclass of `int`,
so `isinstance(True, int)` is `True`: booleans pass this check. -/
def isInstInt : Value → Bool
  | .int _ => true
  | .bool _ => true
  | _ => false

/-- `isinstance(value, bool)`. -/
def isInstBool : Value → Bool
  | .bool _ => true
  | _ => false

/-- `isinstance(value, list)`. -/
def isInstList : Value → Bool
  | .list _ => true
  | _ => false

/-- `isinstance(value, dict)`. -/
def isInstDict : Value → Bool
  | .dict _ => true
  | _ => false

/-- `param_type == "<s>"`: Python `==` between the stored `type` value
and a string literal. -/
def typeIs (v : Value) (s : String) : Bool :=
  match v with
  | .str t => t == s
  | _ => false

/-- `str(value)` for the kinds of value the engine can hold.  On the
only reachable path (pattern check of a value that passed the string
type check) the value is already a string. -/
def pyStr : Value → String
  | .str s => s
  | .int n => toString n
  | .bool b => if b then "True" else "False"
  | .list _ => "[...]"
  | .dict _ => "{...}"

/-- Python `<` between values, as used by the range check.  Numeric
values (ints and bools, booleans counting as 0/1) compare numerically;
strings compare lexicographically; any other pairing raises
`TypeError`. -/
def pyLt : Value → Value → Except EngineError Bool
  | .int a, .int b => .ok (a < b)
  | .int a, .bool b => .ok (a < (if b then 1 else 0))
  | .bool a, .int b => .ok ((if a then (1 : Int) else 0) < b)
  | .bool a, .bool b => .ok ((if a then (1 : Int) else 0) < (if b then 1 else 0))
  | .str a, .str b => .ok (a < b)
  | _, _ => .error (.typeError "'<' not supported between operand types")

/-- The type-validation `elif` chain of `_validate_parameter`
(lines 333–342). -/
def typeCheck (name : String) (paramType value : Value) :
    Except EngineError Unit :=
  if typeIs paramType "string" && !isInstStr value then
    .error (.typeMismatch name "string")
  else if typeIs paramType "integer" && !isInstInt value then
    .error (.typeMismatch name "integer")
  else if typeIs paramType "boolean" && !isInstBool value then
    .error (.typeMismatch name "boolean")
  else if typeIs paramType "array" && !isInstList value then
    .error (.typeMismatch name "array")
  else if typeIs paramType "object" && !isInstDict value then
    .error (.typeMismatch name "object")
  else .ok ()

/-- The enum validation of `_validate_parameter` (lines 345–346).  The
enum value is schema-typed as an array; a non-list enum would make
Python's `in` raise `TypeError` for the non-string values used here,
modelled by the same constructor. -/
def enumCheck (name : String) (value : Value) (definition : AList) :
    Except EngineError Unit :=
  match alGet definition "enum" with
  | none => .ok ()
  | some (.list xs) =>
    if !xs.any (pyEq value) then .error (.enumViolation name) else .ok ()
  | some _ => .error (.typeError "argument is not iterable")

/-- The pattern validation for strings of `_validate_parameter`
(lines 349–353): `re.match(definition["pattern"], str(value))`. -/
def patternCheck (name : String) (paramType value : Value)
    (definition : AList) : Except EngineError Unit :=
  match alGet definition "pattern" with
  | none => .ok ()
  | some (.str p) =>
    if typeIs paramType "string" then
      match parseRegex p with
      | none => .error (.regexUnsupported p)
      | some pr =>
        if !pyReMatch pr (pyStr value) then .error (.patternMismatch name p)
        else .ok ()
    else .ok ()
  | some _ =>
    if typeIs paramType "string" then
      .error (.typeError "pattern must be a string")
    else .ok ()

/-- The `max` half of the range validation (lines 359–360):
`if "max" in definition and value > definition["max"]`. -/
def rangeMaxCheck (name : String) (value : Value) (definition : AList) :
    Except EngineError Unit :=
  match alGet definition "max" with
  | none => .ok ()
  | some mx =>
    match pyLt mx value with
    | .error e => .error e
    | .ok true => .error (.rangeViolation name "max")
    | .ok false => .ok ()

/-- The range validation for numbers of `_validate_parameter`
(lines 356–360): the `min` check runs first and raises on violation,
then the `max` check. -/
def rangeCheck (name : String) (paramType value : Value)
    (definition : AList) : Except EngineError Unit :=
  if typeIs paramType "integer" || typeIs paramType "number" then
    match alGet definition "min" with
    | none => rangeMaxCheck name value definition
    | some mn =>
      match pyLt value mn with
      | .error e => .error e
      | .ok true => .error (.rangeViolation name "min")
      | .ok false => rangeMaxCheck name value definition
  else .ok ()

/-- `TemplateEngine._validate_parameter` (lines 328–360): read
`definition["type"]` (a `KeyError` if absent), then run the type check,
the enum check, the pattern check and the range check in order,
raising at the first violation. -/
def validateParameter (name : String) (value : Value) (definition : AList) :
    Except EngineError Unit := do
  let paramType ← match alGet definition "type" with
    | some t => Except.ok t
    | none => Except.error (.keyError "type")
  typeCheck name paramType value
  enumCheck name value definition
  patternCheck name paramType value definition
  rangeCheck name paramType value definition

/-- The per-parameter loop of `TemplateEngine._prepare_parameters`
(lines 312–324): provided value, else declared default, else error when
required (Python truthiness of the `required` field), else skip; each
chosen value is validated and bound in declaration order.  A parameter
spec that is not a dict is schema-unreachable and modelled as the host
`TypeError`/`AttributeError` its subscripting would raise. -/
def prepareParams (provided : AList) : List (String × Value) → Except EngineError AList
  | [] => .ok []
  | (name, pd) :: rest =>
    match pd with
    | .dict d =>
      match alGet provided name with
      | some value => do
        validateParameter name value d
        let restParams ← prepareParams provided rest
        .ok ((name, value) :: restParams)
      | none =>
        match alGet d "default" with
        | some dv => do
          validateParameter name dv d
          let restParams ← prepareParams provided rest
          .ok ((name, dv) :: restParams)
        | none =>
          if pyTruthy ((alGet d "required").getD (.bool false)) then
            .error (.missingRequired name)
          else
            prepareParams provided rest
    | _ => .error (.typeError "parameter spec is not a mapping")

/-- `_prepare_parameters` (lines 296–326) followed by the system
parameter injection of `generate_template` (lines 253–264):
`final_params.update({template_name, template_version, generated_at,
generated_by})` — each reserved key is written into the dict,
overwriting any parameter of the same name. -/
def finalParamsOf (metadata : AList) (provided : AList) (now : String) :
    Except EngineError AList := do
  let templateParams ← match alGet metadata "parameters" with
    | none => Except.ok ([] : AList)
    | some (.dict ps) => Except.ok ps
    | some _ => Except.error (.typeError "parameters is not a mapping")
  let prepared ← prepareParams provided templateParams
  let name ← match alGet metadata "name" with
    | some v => Except.ok v
    | none => Except.error (.keyError "name")
  let version ← match alGet metadata "version" with
    | some v => Except.ok v
    | none => Except.error (.keyError "version")
  .ok (alSet (alSet (alSet (alSet prepared
        "template_name" name)
        "template_version" version)
        "generated_at" (.str now))
        "generated_by" (.str "container-template-engine"))

/-! ## Generation -/

/-- The `if isinstance(file_patterns, str): file_patterns =
[file_patterns]` normalisation (lines 271–272, 415–416, 426–427)
followed by iterating the patterns.  A group value that is neither a
string nor a list raises at iteration/`Path` time (`TypeError`); a list
with a non-string element is modelled as the same host error (Python
would raise it when the element reaches the `/` path operator). -/
def toPatterns : Value → Except EngineError (List String)
  | .str s => .ok [s]
  | .list xs =>
    if xs.all isStrV then
      .ok (xs.filterMap (fun v => match v with | .str s => some s | _ => none))
    else .error (.typeError "unsupported operand type for path join")
  | _ => .error (.typeError "file group is not iterable")

/-- The existence oracle: `(<templates_dir>/<relative path>).exists()`,
applied to `template_path ++ "/" ++ pattern`. -/
abbrev ExistsOracle := String → Bool

/-- The Jinja2 oracle: `jinja_env.get_template(name).render(**ctx)` for
the template `name = f"{template_path}/{pattern}"` under the context
`ctx`; `.error msg` stands for a raised `jinja2.TemplateError` whose
`str()` is `msg`. -/
abbrev RenderOracle := String → AList → Except String String

/-- The inner per-pattern loop of `generate_template` (lines 274–292):
skip a pattern whose source file does not exist; render an existing one
and record `str(Path(output_dir) / pattern) ↦ content`; on a
`TemplateError`, re-raise `TemplateError(f"Error rendering {pattern}:
{e}")`, abandoning the rest of the generation call. -/
def renderPatterns (ex : ExistsOracle) (renderF : RenderOracle)
    (templatePath outputDir : String) (ctx : AList) :
    List String → Except EngineError (List (String × String))
  | [] => .ok []
  | p :: ps =>
    if ex (templatePath ++ "/" ++ p) then
      match renderF (templatePath ++ "/" ++ p) ctx with
      | .ok content => do
        let rest ← renderPatterns ex renderF templatePath outputDir ctx ps
        .ok ((outputDir ++ "/" ++ p, content) :: rest)
      | .error e =>
        .error (.renderError ("Error rendering " ++ p ++ ": " ++ e))
    else
      renderPatterns ex renderF templatePath outputDir ctx ps

/-- The outer loop of `generate_template` over
`metadata.get("files", {}).items()` (line 270). -/
def renderFiles (ex : ExistsOracle) (renderF : RenderOracle)
    (templatePath outputDir : String) (ctx : AList) :
    List (String × Value) → Except EngineError (List (String × String))
  | [] => .ok []
  | (_, fv) :: rest => do
    let pats ← toPatterns fv
    let here ← renderPatterns ex renderF templatePath outputDir ctx pats
    let there ← renderFiles ex renderF templatePath outputDir ctx rest
    .ok (here ++ there)

/-- `TemplateEngine.generate_template` (lines 232–294): resolve
inheritance, prepare and validate parameters, inject the system
parameters, render every declared file that exists.  The returned
mapping is `generated_files`; the `dry_run` flag only toggles the
filesystem writes, which are outside the embedding. -/
def generateTemplate (store : Store) (ex : ExistsOracle) (renderF : RenderOracle)
    (fuel : Nat) (templatePath outputDir : String) (provided : AList)
    (now : String) : Except EngineError (List (String × String)) := do
  let metadata ← resolveInheritance store fuel templatePath
  let finalParams ← finalParamsOf metadata provided now
  match (alGet metadata "files").getD (.dict []) with
  | .dict groups =>
    renderFiles ex renderF templatePath outputDir finalParams groups
  | _ => throw (.typeError "files has no attribute items")

/-! ## Validation -/

/-- The default-parameter collection of `validate_template`
(lines 437–442): every parameter with a declared `default` is bound to
it, parameters without a default are omitted.  A non-dict spec is
schema-unreachable and modelled as the host error its subscripting
would raise. -/
def defaultParamsOf (metadata : AList) : Except EngineError AList :=
  match alGet metadata "parameters" with
  | none => .ok []
  | some (.dict ps) => collectDefaults ps
  | some _ => .error (.typeError "parameters is not a mapping")
where
  collectDefaults : List (String × Value) → Except EngineError AList
    | [] => .ok []
    | (name, .dict d) :: rest => do
      let restD ← collectDefaults rest
      match alGet d "default" with
      | some dv => .ok ((name, dv) :: restD)
      | none => .ok restD
    | (_, _) :: _ => .error (.typeError "parameter spec is not a mapping")

/-- The inner missing-file loop of `validate_template` (lines 418–422):
append `Required file missing: <pattern>` and clear `valid` for every
pattern whose file does not exist; never stop early. -/
def missingInner (ex : ExistsOracle) (templatePath : String) :
    List String → List String → Bool → List String × Bool
  | [], errs, val => (errs, val)
  | p :: ps, errs, val =>
    if ex (templatePath ++ "/" ++ p) then
      missingInner ex templatePath ps errs val
    else
      missingInner ex templatePath ps
        (errs ++ ["Required file missing: " ++ p]) false

/-- The outer missing-file loop of `validate_template` (lines 414–422)
over the file groups; a malformed group raises out of the loop (the
errors recorded so far are kept, Python mutates `results` in place). -/
def missingPhase (ex : ExistsOracle) (templatePath : String) :
    List (String × Value) → List String → Bool →
    List String × Bool × Option EngineError
  | [], errs, val => (errs, val, none)
  | (_, fv) :: rest, errs, val =>
    match toPatterns fv with
    | .error e => (errs, val, some e)
    | .ok pats =>
      let (errs', val') := missingInner ex templatePath pats errs val
      missingPhase ex templatePath rest errs' val'

/-- The inner render loop of `validate_template` (lines 429–449): for
every pattern whose file exists, render it with the default parameters;
a `TemplateError` appends `Template syntax error in <pattern>: <e>` and
clears `valid`, then the loop continues with the next pattern. -/
def renderInner (renderD : RenderOracle) (ex : ExistsOracle)
    (templatePath : String) (metadata : AList) :
    List String → List String → Bool →
    List String × Bool × Option EngineError
  | [], errs, val => (errs, val, none)
  | p :: ps, errs, val =>
    if ex (templatePath ++ "/" ++ p) then
      match defaultParamsOf metadata with
      | .error e => (errs, val, some e)
      | .ok dflt =>
        match renderD (templatePath ++ "/" ++ p) dflt with
        | .ok _ => renderInner renderD ex templatePath metadata ps errs val
        | .error e =>
          renderInner renderD ex templatePath metadata ps
            (errs ++ ["Template syntax error in " ++ p ++ ": " ++ e]) false
    else
      renderInner renderD ex templatePath metadata ps errs val

/-- The outer render loop of `validate_template` (lines 425–449). -/
def renderPhase (renderD : RenderOracle) (ex : ExistsOracle)
    (templatePath : String) (metadata : AList) :
    List (String × Value) → List String → Bool →
    List String × Bool × Option EngineError
  | [], errs, val => (errs, val, none)
  | (_, fv) :: rest, errs, val =>
    match toPatterns fv with
    | .error e => (errs, val, some e)
    | .ok pats =>
      match renderInner renderD ex templatePath metadata pats errs val with
      | (errs', val', some e) => (errs', val', some e)
      | (errs', val', none) =>
        renderPhase renderD ex templatePath metadata rest errs' val'

/-- The four-field result dict of `validate_template` (line 404). -/
structure ValidationResults where
  valid : Bool
  errors : List String
  warnings : List String
  metadata : Option AList
  deriving Repr

/-- The part of `validate_template`'s `try` block after a successful
`resolve_inheritance` (lines 409–449): at this point `results` holds
`valid = True`, `errors = []`, `warnings = []` and the resolved
metadata; the two loops then run over `metadata.get("files", {})`. -/
def validateBodyAfter (ex : ExistsOracle) (renderD : RenderOracle)
    (templatePath : String) (m : AList) :
    ValidationResults × Option EngineError :=
  match (alGet m "files").getD (.dict []) with
  | .dict groups =>
    match missingPhase ex templatePath groups [] true with
    | (errs, val, some e) => (⟨val, errs, [], some m⟩, some e)
    | (errs, val, none) =>
      match renderPhase renderD ex templatePath m groups errs val with
      | (errs', val', exc) => (⟨val', errs', [], some m⟩, exc)
  | _ => (⟨true, [], [], some m⟩, some (.typeError "files has no attribute items"))

/-- The body of `validate_template`'s `try` block (lines 406–449),
threading the `results` dict; the second component is the exception
escaping the block, if any (the `results` mutated so far are kept). -/
def validateBody (store : Store) (ex : ExistsOracle) (renderD : RenderOracle)
    (fuel : Nat) (templatePath : String) :
    ValidationResults × Option EngineError :=
  match resolveInheritance store fuel templatePath with
  | .error e => (⟨true, [], [], none⟩, some e)
  | .ok m => validateBodyAfter ex renderD templatePath m

/-- `TemplateEngine.validate_template` (lines 395–455): run the body;
any exception is caught by the trailing `except Exception` and turned
into a `Template validation failed: <e>` entry with `valid` cleared. -/
def validateTemplate (store : Store) (ex : ExistsOracle) (renderD : RenderOracle)
    (fuel : Nat) (templatePath : String) : ValidationResults :=
  match validateBody store ex renderD fuel templatePath with
  | (r, none) => r
  | (r, some e) =>
    { r with
      errors := r.errors ++ ["Template validation failed: " ++ errMsg e]
      valid := false }

/-- Is `needle` a contiguous substring of `hay`? (Used to state what a
message does or does not name.) -/
def strContains (hay needle : String) : Bool :=
  (List.range (hay.data.length + 1)).any
    (fun k => needle.data.isPrefixOf (hay.data.drop k))

/-! ## Association-list lemmas -/

theorem alGet_alSet_self (l : AList) (k : String) (v : Value) :
    alGet (alSet l k v) k = some v := by
  induction l with
  | nil => simp [alGet, alSet]
  | cons hd t ih =>
    obtain ⟨k', v'⟩ := hd
    by_cases h : k' = k <;> simp [alGet, alSet, h, ih]

theorem alGet_alSet_other {k k' : String} (h : k' ≠ k) (l : AList) (v : Value) :
    alGet (alSet l k v) k' = alGet l k' := by
  induction l with
  | nil => simp [alGet, alSet, Ne.symm h]
  | cons hd t ih =>
    obtain ⟨k₀, v₀⟩ := hd
    by_cases h₀ : k₀ = k
    · subst h₀
      simp [alGet, alSet, Ne.symm h]
    · simp [alGet, alSet, h₀, ih]

theorem alGet_popKey_other {k k' : String} (h : k' ≠ k) (l : AList) :
    alGet (popKey l k) k' = alGet l k' := by
  induction l with
  | nil => simp [popKey]
  | cons hd t ih =>
    obtain ⟨k₀, v₀⟩ := hd
    by_cases h₀ : k₀ = k
    · subst h₀
      simp [popKey, alGet, Ne.symm h]
    · simp [popKey, alGet, h₀, ih]

theorem popKey_alSet_self (l : AList) (k : String) (v : Value) :
    popKey (alSet l k v) k = popKey l k := by
  induction l with
  | nil => simp [popKey, alSet]
  | cons hd t ih =>
    obtain ⟨k₀, v₀⟩ := hd
    by_cases h₀ : k₀ = k <;> simp [popKey, alSet, h₀, ih]

theorem popKey_alSet_other {k k' : String} (h : k' ≠ k) (l : AList) (v : Value) :
    popKey (alSet l k' v) k = alSet (popKey l k) k' v := by
  induction l with
  | nil => simp [popKey, alSet, h]
  | cons hd t ih =>
    obtain ⟨k₀, v₀⟩ := hd
    by_cases h₀ : k₀ = k'
    · subst h₀
      simp [popKey, alSet, h]
    · by_cases h₁ : k₀ = k
      · subst h₁
        simp [popKey, alSet, h₀, Ne.symm h₀]
      · simp [popKey, alSet, h₀, h₁, ih]

theorem alGet_eq_none_of_not_mem {l : AList} {k : String}
    (h : k ∉ keys l) : alGet l k = none := by
  induction l with
  | nil => simp [alGet]
  | cons hd t ih =>
    obtain ⟨k₀, v₀⟩ := hd
    simp only [keys, List.map_cons, List.mem_cons] at h
    push_neg at h
    simp [alGet, Ne.symm h.1, ih (by simpa [keys] using h.2)]

/-! ## Deep-merge lemmas -/

theorem mergeInto_nil (base : AList) : mergeInto base [] = base := by
  simp [mergeInto]

theorem mergeInto_cons (base : AList) (k : String) (v : Value) (rest : AList) :
    mergeInto base ((k, v) :: rest) =
      mergeInto (alSet base k (mergeVal (alGet base k) v)) rest := by
  simp [mergeInto]

/-- A key absent from the override keeps its base binding. -/
theorem alGet_mergeInto_not_mem {ov : AList} {k : String}
    (h : k ∉ keys ov) (base : AList) :
    alGet (mergeInto base ov) k = alGet base k := by
  induction ov generalizing base with
  | nil => simp [mergeInto_nil]
  | cons hd rest ih =>
    obtain ⟨k₀, v₀⟩ := hd
    simp only [keys, List.map_cons, List.mem_cons] at h
    push_neg at h
    rw [mergeInto_cons, ih (by simpa [keys] using h.2),
      alGet_alSet_other h.1]

/-- A key bound in a duplicate-free override is bound in the merge to
one deep-merge step of the base's binding and the override's. -/
theorem alGet_mergeInto_mem {ov : AList} {k : String} {v : Value}
    (hnd : (keys ov).Nodup) (h : alGet ov k = some v) (base : AList) :
    alGet (mergeInto base ov) k = some (mergeVal (alGet base k) v) := by
  induction ov generalizing base with
  | nil => simp [alGet] at h
  | cons hd rest ih =>
    obtain ⟨k₀, v₀⟩ := hd
    simp only [keys, List.map_cons, List.nodup_cons] at hnd
    by_cases h₀ : k₀ = k
    · subst h₀
      simp only [alGet, if_pos, Option.some.injEq] at h
      subst h
      rw [mergeInto_cons,
        alGet_mergeInto_not_mem (by simpa [keys] using hnd.1),
        alGet_alSet_self]
    · simp only [alGet, if_neg h₀] at h
      rw [mergeInto_cons, ih (by simpa [keys] using hnd.2) h,
        alGet_alSet_other (Ne.symm h₀)]

/-! ## Small `Except` reduction helpers -/

@[simp] theorem ok_bind {α β : Type} (a : α)
    (f : α → Except EngineError β) :
    (Except.ok a >>= f) = f a := rfl

@[simp] theorem error_bind {α β : Type} (e : EngineError)
    (f : α → Except EngineError β) :
    ((Except.error e : Except EngineError α) >>= f) = Except.error e := rfl

/-! ## Resolution-step lemmas -/

/-- One successful resolution step of a template with no parent. -/
theorem resolveInheritance_no_parent {store : Store} {path : String}
    {m : AList} (fuel : Nat)
    (hl : loadTemplateMetadata store path = .ok m)
    (hi : alGet m "inherits" = none) :
    resolveInheritance store (fuel + 1) path = .ok m := by
  unfold resolveInheritance
  rw [hl]
  simp [hi]

/-- One resolution step of a template with a parent reference. -/
theorem resolveInheritance_parent {store : Store} {path parentPath : String}
    {m : AList} (fuel : Nat)
    (hl : loadTemplateMetadata store path = .ok m)
    (hi : alGet m "inherits" = some (.str parentPath)) :
    resolveInheritance store (fuel + 1) path =
      match resolveInheritance store fuel parentPath with
      | .ok pm => .ok (popKey (mergeInto pm m) "inherits")
      | .error e => .error e := by
  rw [resolveInheritance, hl]
  simp only [ok_bind, hi]
  cases resolveInheritance store fuel parentPath <;> rfl

/-! ## C1 — cyclic inheritance chains -/

/-- Failing input for cycle handling: a template whose `inherits` field
names itself.  The metadata satisfies the schema, so every resolution
step reloads it and recurses. -/
def cyclicMeta : AList :=
  [("name", .str "cyclic"), ("version", .str "1.0"),
   ("description", .str "self-inheriting template"),
   ("category", .str "app"),
   ("inherits", .str "cyclic")]

/-- A template store containing only the self-inheriting template. -/
def cyclicStore : Store := fun p =>
  if p = "cyclic" then some (.dict cyclicMeta) else none

/-- C1: on a cyclic parent chain, `resolve_inheritance` never raises an
`InheritanceCycleError` (no such error exists in the code) and never
completes: for every recursion budget it recurses until the budget is
exhausted, which in Python is an unbounded recursion ending in
`RecursionError`. -/
theorem c1_cyclic_inheritance_diverges :
    ∀ fuel, resolveInheritance cyclicStore fuel "cyclic" =
      .error .recursionLimit := by
  intro fuel
  induction fuel with
  | zero => rfl
  | succ n ih =>
    have hl : loadTemplateMetadata cyclicStore "cyclic" = .ok cyclicMeta := rfl
    have hi : alGet cyclicMeta "inherits" = some (.str "cyclic") := rfl
    rw [resolveInheritance_parent n hl hi, ih]

/-! ## C2 — child overriding only a parameter's `default` -/

/-- C2: a two-template chain where the child's spec for `pname` carries
only a `default` field.  The resolved template's spec for `pname` keeps
every parent field other than `default` unchanged and takes the child's
`default` (merged key-by-key with the parent's when both are mappings,
as one further deep-merge step).

Note the schema requires `type`/`description` in parameter specs whose
names match `^[a-zA-Z_][a-zA-Z0-9_]*$`, so a schema-valid default-only
override can only occur under a parameter name outside that pattern
(e.g. containing a hyphen); the hypotheses require both templates to
load, which enforces this. -/
theorem c2_default_only_override_keeps_parent_fields
    (store : Store) (fuel : Nat) (cpath ppath pname : String)
    (child parent pp cp pspec : AList) (dv : Value)
    (hc : loadTemplateMetadata store cpath = .ok child)
    (hp : loadTemplateMetadata store ppath = .ok parent)
    (hinh : alGet child "inherits" = some (.str ppath))
    (hpinh : alGet parent "inherits" = none)
    (hppar : alGet parent "parameters" = some (.dict pp))
    (hcpar : alGet child "parameters" = some (.dict cp))
    (hpspec : alGet pp pname = some (.dict pspec))
    (hcspec : alGet cp pname = some (.dict [("default", dv)]))
    (hndc : (keys child).Nodup) (hndcp : (keys cp).Nodup) :
    resolveInheritance store (fuel + 2) cpath =
      .ok (popKey (mergeInto parent child) "inherits") ∧
    alGet (popKey (mergeInto parent child) "inherits") "parameters" =
      some (.dict (mergeInto pp cp)) ∧
    alGet (mergeInto pp cp) pname =
      some (.dict (mergeInto pspec [("default", dv)])) ∧
    (∀ k, k ≠ "default" →
      alGet (mergeInto pspec [("default", dv)]) k = alGet pspec k) ∧
    alGet (mergeInto pspec [("default", dv)]) "default" =
      some (mergeVal (alGet pspec "default") dv) := by
  have hresp : resolveInheritance store (fuel + 1) ppath = .ok parent :=
    resolveInheritance_no_parent fuel hp hpinh
  refine ⟨?_, ?_, ?_, ?_, ?_⟩
  · rw [resolveInheritance_parent (fuel + 1) hc hinh, hresp]
  · rw [alGet_popKey_other (by decide),
      alGet_mergeInto_mem hndc hcpar, hppar]
    simp [mergeVal]
  · rw [alGet_mergeInto_mem hndcp hcspec, hpspec]
    simp [mergeVal]
  · intro k hk
    exact alGet_mergeInto_not_mem (by simpa [keys] using hk) pspec
  · exact alGet_mergeInto_mem (by simp [keys]) (by simp [alGet]) pspec

/-- Witness for C2 at a concrete two-template store: the parent
declares `log-level` with type/description/required/enum/pattern and
default `"info"`; the child overrides only `default` to `"debug"`. -/
theorem c2_default_only_override_keeps_parent_fields_witness :
    resolveInheritance
      (fun p =>
        if p = "apps/web" then
          some (.dict
            [("name", .str "web"), ("version", .str "2.0"),
             ("description", .str "child"), ("category", .str "app"),
             ("inherits", .str "base/common"),
             ("parameters", .dict
               [("log-level", .dict [("default", .str "debug")])])])
        else if p = "base/common" then
          some (.dict
            [("name", .str "common"), ("version", .str "1.0"),
             ("description", .str "parent"), ("category", .str "base"),
             ("parameters", .dict
               [("log-level", .dict
                 [("type", .str "string"),
                  ("description", .str "logging level"),
                  ("required", .bool true),
                  ("enum", .list [.str "info", .str "debug"]),
                  ("default", .str "info")])])])
        else none)
      7 "apps/web" =
      .ok (popKey
        (mergeInto
          [("name", .str "common"), ("version", .str "1.0"),
           ("description", .str "parent"), ("category", .str "base"),
           ("parameters", .dict
             [("log-level", .dict
               [("type", .str "string"),
                ("description", .str "logging level"),
                ("required", .bool true),
                ("enum", .list [.str "info", .str "debug"]),
                ("default", .str "info")])])]
          [("name", .str "web"), ("version", .str "2.0"),
           ("description", .str "child"), ("category", .str "app"),
           ("inherits", .str "base/common"),
           ("parameters", .dict
             [("log-level", .dict [("default", .str "debug")])])])
        "inherits") ∧
    alGet (mergeInto
      [("type", .str "string"),
       ("description", .str "logging level"),
       ("required", .bool true),
       ("enum", .list [.str "info", .str "debug"]),
       ("default", .str "info")]
      [("default", .str "debug")]) "type" = some (.str "string") ∧
    alGet (mergeInto
      [("type", .str "string"),
       ("description", .str "logging level"),
       ("required", .bool true),
       ("enum", .list [.str "info", .str "debug"]),
       ("default", .str "info")]
      [("default", .str "debug")]) "default" = some (.str "debug") := by
  obtain ⟨h₁, -, -, h₄, h₅⟩ :=
    c2_default_only_override_keeps_parent_fields
      (fun p =>
        if p = "apps/web" then
          some (.dict
            [("name", .str "web"), ("version", .str "2.0"),
             ("description", .str "child"), ("category", .str "app"),
             ("inherits", .str "base/common"),
             ("parameters", .dict
               [("log-level", .dict [("default", .str "debug")])])])
        else if p = "base/common" then
          some (.dict
            [("name", .str "common"), ("version", .str "1.0"),
             ("description", .str "parent"), ("category", .str "base"),
             ("parameters", .dict
               [("log-level", .dict
                 [("type", .str "string"),
                  ("description", .str "logging level"),
                  ("required", .bool true),
                  ("enum", .list [.str "info", .str "debug"]),
                  ("default", .str "info")])])])
        else none)
      5 "apps/web" "base/common" "log-level"
      _ _ _ _ _ (.str "debug")
      rfl rfl rfl rfl rfl rfl rfl rfl (by decide) (by decide)
  refine ⟨h₁, ?_, ?_⟩
  · rw [h₄ "type" (by decide)]
    rfl
  · rw [h₅]
    simp [alGet, mergeVal]

/-! ## C3 — missing required parameters -/

theorem bind_eq_error {α β : Type} {x : Except EngineError α}
    {f : α → Except EngineError β} {e : EngineError} :
    (x >>= f) = .error e ↔
      x = .error e ∨ ∃ a, x = .ok a ∧ f a = .error e := by
  cases x with
  | ok a => simp [ok_bind]
  | error e' => simp [error_bind]

/-- `pyLt` returns a comparison or the host `TypeError`, never any
other error. -/
theorem pyLt_shape (a b : Value) :
    (∃ r, pyLt a b = .ok r) ∨
      pyLt a b = .error (.typeError "'<' not supported between operand types") := by
  cases a <;> cases b <;> simp [pyLt]

theorem typeCheck_ne_missing {n name : String} {paramType value : Value} :
    typeCheck name paramType value ≠ .error (.missingRequired n) := by
  unfold typeCheck
  split <;> try split
  all_goals try split
  all_goals try split
  all_goals try split
  all_goals simp

theorem enumCheck_ne_missing {n name : String} {value : Value}
    {definition : AList} :
    enumCheck name value definition ≠ .error (.missingRequired n) := by
  unfold enumCheck
  split
  · simp
  · split <;> simp
  · simp

theorem patternCheck_ne_missing {n name : String} {paramType value : Value}
    {definition : AList} :
    patternCheck name paramType value definition ≠
      .error (.missingRequired n) := by
  unfold patternCheck
  split
  · simp
  · split
    · split
      · simp
      · split <;> simp
    · simp
  · split <;> simp

theorem rangeMaxCheck_ne_missing {n name : String} {value : Value}
    {definition : AList} :
    rangeMaxCheck name value definition ≠ .error (.missingRequired n) := by
  unfold rangeMaxCheck
  cases hmx : alGet definition "max" with
  | none => simp
  | some mx =>
    rcases pyLt_shape mx value with ⟨r, hr⟩ | hr
    · cases r <;> simp [hr]
    · simp [hr]

theorem rangeCheck_ne_missing {n name : String} {paramType value : Value}
    {definition : AList} :
    rangeCheck name paramType value definition ≠
      .error (.missingRequired n) := by
  unfold rangeCheck
  split
  · cases hmn : alGet definition "min" with
    | none => exact rangeMaxCheck_ne_missing
    | some mn =>
      rcases pyLt_shape value mn with ⟨r, hr⟩ | hr
      · cases r
        · simp only [hr]
          exact rangeMaxCheck_ne_missing
        · simp [hr]
      · simp [hr]
  · simp

theorem validateParameter_ne_missing {n name : String} {value : Value}
    {definition : AList}
    (h : validateParameter name value definition = .error (.missingRequired n)) :
    False := by
  unfold validateParameter at h
  cases ht : alGet definition "type" with
  | none =>
    rw [ht] at h
    simp at h
  | some t =>
    rw [ht] at h
    simp only [ok_bind] at h
    rcases bind_eq_error.mp h with hx | ⟨u, -, hx⟩
    · exact typeCheck_ne_missing hx
    · rcases bind_eq_error.mp hx with hy | ⟨u', -, hy⟩
      · exact enumCheck_ne_missing hy
      · rcases bind_eq_error.mp hy with hz | ⟨u'', -, hz⟩
        · exact patternCheck_ne_missing hz
        · exact rangeCheck_ne_missing hz

theorem bind_eq_ok {α β : Type} {x : Except EngineError α}
    {f : α → Except EngineError β} {b : β} :
    (x >>= f) = .ok b ↔ ∃ a, x = .ok a ∧ f a = .ok b := by
  cases x with
  | ok a => simp [ok_bind]
  | error e => simp [error_bind]

/-- Preparing a concatenation: a successfully prepared prefix
contributes its bindings in front of whatever the suffix yields. -/
theorem prepareParams_append_ok {provided : AList}
    {ps₁ : List (String × Value)} {m : AList}
    (h : prepareParams provided ps₁ = .ok m) (ps₂ : List (String × Value)) :
    prepareParams provided (ps₁ ++ ps₂) =
      (prepareParams provided ps₂).map (fun r => m ++ r) := by
  induction ps₁ generalizing m with
  | nil =>
    simp only [prepareParams] at h
    rw [Except.ok.injEq] at h
    subst h
    cases hp : prepareParams provided ps₂ <;> simp [Except.map, hp]
  | cons hd tl ih =>
    obtain ⟨k, pd⟩ := hd
    cases pd with
    | dict d =>
      cases hpv : alGet provided k with
      | some value =>
        simp only [prepareParams, hpv] at h ⊢
        rcases bind_eq_ok.mp h with ⟨u, hu, h⟩
        rcases bind_eq_ok.mp h with ⟨m', hm', h⟩
        rw [Except.ok.injEq] at h
        subst h
        rw [hu]
        simp only [ok_bind, List.append_eq]
        rw [ih hm']
        cases hp : prepareParams provided ps₂ <;> simp [Except.map, hp]
      | none =>
        cases hdv : alGet d "default" with
        | some dv =>
          simp only [prepareParams, hpv, hdv] at h ⊢
          rcases bind_eq_ok.mp h with ⟨u, hu, h⟩
          rcases bind_eq_ok.mp h with ⟨m', hm', h⟩
          rw [Except.ok.injEq] at h
          subst h
          rw [hu]
          simp only [ok_bind, List.append_eq]
          rw [ih hm']
          cases hp : prepareParams provided ps₂ <;> simp [Except.map, hp]
        | none =>
          simp only [prepareParams, hpv, hdv] at h ⊢
          by_cases hreq : pyTruthy ((alGet d "required").getD (.bool false)) = true
          · simp [hreq] at h
          · simp only [Bool.not_eq_true] at hreq
            simp only [hreq] at h ⊢
            exact ih h
    | str s => simp [prepareParams] at h
    | int i => simp [prepareParams] at h
    | bool b => simp [prepareParams] at h
    | list xs => simp [prepareParams] at h

/-- `_prepare_parameters` can emit `Required parameter '<n>' not
provided` only when some declared parameter named `n` is neither
supplied nor defaulted. -/
theorem prepareParams_ne_missing {provided : AList}
    {ps : List (String × Value)} {n : String}
    (h : ∀ d, (n, Value.dict d) ∈ ps →
      (alGet provided n).isSome = true ∨ (alGet d "default").isSome = true) :
    prepareParams provided ps ≠ .error (.missingRequired n) := by
  induction ps with
  | nil => simp [prepareParams]
  | cons hd tl ih =>
    obtain ⟨k, pd⟩ := hd
    have htl : ∀ d, (n, Value.dict d) ∈ tl →
        (alGet provided n).isSome = true ∨ (alGet d "default").isSome = true :=
      fun d hm => h d (List.mem_cons_of_mem _ hm)
    intro hcon
    cases pd with
    | dict d =>
      cases hpv : alGet provided k with
      | some value =>
        simp only [prepareParams, hpv] at hcon
        rcases bind_eq_error.mp hcon with hx | ⟨u, -, hx⟩
        · exact validateParameter_ne_missing hx
        · rcases bind_eq_error.mp hx with hy | ⟨m', -, hy⟩
          · exact ih htl hy
          · simp at hy
      | none =>
        cases hdv : alGet d "default" with
        | some dv =>
          simp only [prepareParams, hpv, hdv] at hcon
          rcases bind_eq_error.mp hcon with hx | ⟨u, -, hx⟩
          · exact validateParameter_ne_missing hx
          · rcases bind_eq_error.mp hx with hy | ⟨m', -, hy⟩
            · exact ih htl hy
            · simp at hy
        | none =>
          simp only [prepareParams, hpv, hdv] at hcon
          by_cases hreq : pyTruthy ((alGet d "required").getD (.bool false)) = true
          · simp only [hreq, if_true] at hcon
            rw [Except.error.injEq, EngineError.missingRequired.injEq] at hcon
            subst hcon
            rcases h d (List.mem_cons_self _ _) with hs | hs
            · rw [hpv] at hs
              simp at hs
            · rw [hdv] at hs
              simp at hs
          · simp only [Bool.not_eq_true] at hreq
            simp only [hreq] at hcon
            exact ih htl hcon
    | str s => simp [prepareParams] at hcon
    | int i => simp [prepareParams] at hcon
    | bool b => simp [prepareParams] at hcon
    | list xs => simp [prepareParams] at hcon

/-- C3: a declared parameter that is required and has no default must
be supplied.  First conjunct: if the overrides omit it (and the
parameters declared before it prepare successfully), preparation fails
with the `ValueError` naming exactly that parameter.  Second conjunct:
if the overrides supply it, or a default exists for it, no
missing-parameter error naming it can be raised. -/
theorem c3_required_param_missing :
    (∀ (provided : AList) (ps₁ ps₂ : List (String × Value)) (n : String)
        (d m : AList),
      prepareParams provided ps₁ = .ok m →
      alGet provided n = none →
      alGet d "default" = none →
      pyTruthy ((alGet d "required").getD (.bool false)) = true →
      prepareParams provided (ps₁ ++ (n, Value.dict d) :: ps₂) =
        .error (.missingRequired n)) ∧
    (∀ (provided : AList) (ps : List (String × Value)) (n : String),
      (∀ d, (n, Value.dict d) ∈ ps →
        (alGet provided n).isSome = true ∨ (alGet d "default").isSome = true) →
      prepareParams provided ps ≠ .error (.missingRequired n)) := by
  constructor
  · intro provided ps₁ ps₂ n d m hok hprov hdef hreq
    rw [prepareParams_append_ok hok]
    have hstep : prepareParams provided ((n, Value.dict d) :: ps₂) =
        .error (.missingRequired n) := by
      simp [prepareParams, hprov, hdef, hreq]
    rw [hstep]
    rfl
  · intro provided ps n h
    exact prepareParams_ne_missing h

/-- Witness for C3: `image` is required with no default and omitted,
so preparation fails naming `image`; `port` is required with no default
but supplied, so no missing-parameter error names `port`. -/
theorem c3_required_param_missing_witness :
    prepareParams []
      ([] ++ ("image", Value.dict
        [("type", .str "string"), ("description", .str "base image"),
         ("required", .bool true)]) :: []) =
      .error (.missingRequired "image") ∧
    prepareParams [("port", .int 8080)]
      [("port", Value.dict
        [("type", .str "integer"), ("description", .str "listen port"),
         ("required", .bool true)])] ≠
      .error (.missingRequired "port") :=
  ⟨c3_required_param_missing.1 [] [] [] "image"
      [("type", .str "string"), ("description", .str "base image"),
       ("required", .bool true)] [] rfl rfl rfl rfl,
   c3_required_param_missing.2 [("port", .int 8080)] _ "port"
      (fun _ _ => Or.inl rfl)⟩

/-! ## C4 — exactness of the type check -/

/-- The spec-side acceptance table for the type check, amended to what
the code does: `string`/`boolean`/`array`/`object` accept exactly their
own kind, but `integer` also accepts booleans, because the code's
`isinstance(value, int)` is satisfied by Python booleans.  A declared
type outside the five enum values is never type-checked. -/
def specTypeMatches (t : String) (v : Value) : Bool :=
  if t = "string" then isInstStr v
  else if t = "integer" then isInstInt v
  else if t = "boolean" then isInstBool v
  else if t = "array" then isInstList v
  else if t = "object" then isInstDict v
  else true

theorem typeCheck_ok_iff (n t : String) (v : Value) :
    typeCheck n (.str t) v = .ok () ↔ specTypeMatches t v = true := by
  unfold typeCheck specTypeMatches typeIs
  by_cases h1 : t = "string"
  · subst h1
    cases v <;> simp [isInstStr, isInstInt, isInstBool, isInstList, isInstDict]
  · by_cases h2 : t = "integer"
    · subst h2
      cases v <;> simp [isInstStr, isInstInt, isInstBool, isInstList, isInstDict]
    · by_cases h3 : t = "boolean"
      · subst h3
        cases v <;> simp [isInstStr, isInstInt, isInstBool, isInstList, isInstDict]
      · by_cases h4 : t = "array"
        · subst h4
          cases v <;> simp [isInstStr, isInstInt, isInstBool, isInstList, isInstDict]
        · by_cases h5 : t = "object"
          · subst h5
            cases v <;> simp [isInstStr, isInstInt, isInstBool, isInstList, isInstDict]
          · simp [h1, h2, h3, h4, h5]

theorem enumCheck_none {name : String} {value : Value} {d : AList}
    (h : alGet d "enum" = none) : enumCheck name value d = .ok () := by
  unfold enumCheck
  rw [h]

theorem patternCheck_none {name : String} {paramType value : Value} {d : AList}
    (h : alGet d "pattern" = none) :
    patternCheck name paramType value d = .ok () := by
  unfold patternCheck
  rw [h]

theorem rangeCheck_none {name : String} {paramType value : Value} {d : AList}
    (hmin : alGet d "min" = none) (hmax : alGet d "max" = none) :
    rangeCheck name paramType value d = .ok () := by
  unfold rangeCheck rangeMaxCheck
  rw [hmin, hmax]
  split <;> rfl

/-- C4 (amended): with no enum, pattern or bounds declared, a value is
accepted exactly when it matches the declared type — matching being
exact for `string`, `boolean`, `array` and `object`, while `integer`
also accepts booleans (`isinstance(True, int)` holds in Python). -/
theorem c4_type_check_matches
    (n t : String) (v : Value) (d : AList)
    (ht : alGet d "type" = some (.str t))
    (henum : alGet d "enum" = none)
    (hpat : alGet d "pattern" = none)
    (hmin : alGet d "min" = none)
    (hmax : alGet d "max" = none) :
    validateParameter n v d = .ok () ↔ specTypeMatches t v = true := by
  unfold validateParameter
  rw [ht]
  simp only [ok_bind]
  rw [show (do
      typeCheck n (.str t) v
      enumCheck n v d
      patternCheck n (.str t) v d
      rangeCheck n (.str t) v d : Except EngineError Unit) =
      (typeCheck n (.str t) v >>= fun _ => (do
        enumCheck n v d
        patternCheck n (.str t) v d
        rangeCheck n (.str t) v d)) from rfl]
  rw [enumCheck_none henum]
  cases htc : typeCheck n (.str t) v with
  | ok u =>
    obtain ⟨⟩ := u
    rw [ok_bind, ok_bind, patternCheck_none hpat, ok_bind,
      rangeCheck_none hmin hmax]
    simpa using (typeCheck_ok_iff n t v).mp htc
  | error e =>
    rw [error_bind]
    constructor
    · intro hcon
      cases hcon
    · intro hm
      exact absurd ((typeCheck_ok_iff n t v).mpr hm) (by simp [htc])

/-- Counterexample to C4 as stated: a boolean value supplied for an
integer-typed parameter is accepted, not rejected (while an integer for
a string-typed parameter is indeed rejected). -/
theorem c4_bool_accepted_for_integer :
    validateParameter "p" (.bool true)
      [("type", .str "integer"), ("description", .str "d")] = .ok () ∧
    validateParameter "p" (.int 3)
      [("type", .str "string"), ("description", .str "d")] =
      .error (.typeMismatch "p" "string") :=
  ⟨rfl, rfl⟩

/-- Witness for C4's amended theorem at concrete inputs. -/
theorem c4_type_check_matches_witness :
    validateParameter "p" (.str "x")
      [("type", .str "string"), ("description", .str "d")] = .ok () ∧
    validateParameter "p" (.list [.int 1])
      [("type", .str "object"), ("description", .str "d")] ≠ .ok () :=
  ⟨(c4_type_check_matches "p" "string" (.str "x")
      [("type", .str "string"), ("description", .str "d")]
      rfl rfl rfl rfl rfl).mpr rfl,
   fun h => by
    have := (c4_type_check_matches "p" "object" (.list [.int 1])
      [("type", .str "object"), ("description", .str "d")]
      rfl rfl rfl rfl rfl).mp h
    simp [specTypeMatches, isInstDict] at this⟩

/-! ## C5 — pattern matching is prefix-anchored, not full -/

/-- C5 (amended): for a string-typed parameter with a declared pattern
(within the modelled regex fragment) and no enum, validation accepts a
value exactly when `re.match` succeeds: some *prefix* of the value
matches the pattern (the whole value only when the pattern is
`$`-anchored).  Matching the regex in full is not required. -/
theorem c5_pattern_prefix_semantics
    (n v p : String) (d : AList) (pr : Regex × Bool)
    (ht : alGet d "type" = some (.str "string"))
    (henum : alGet d "enum" = none)
    (hpat : alGet d "pattern" = some (.str p))
    (hpr : parseRegex p = some pr) :
    validateParameter n (.str v) d = .ok () ↔ pyReMatch pr v = true := by
  unfold validateParameter
  rw [ht]
  simp only [ok_bind]
  have htc : typeCheck n (.str "string") (.str v) = .ok () := by
    simp [typeCheck, typeIs, isInstStr]
  have hrc : rangeCheck n (.str "string") (.str v) d = .ok () := by
    unfold rangeCheck
    split
    · simp_all [typeIs]
    · rfl
  rw [show (do
      typeCheck n (.str "string") (.str v)
      enumCheck n (.str v) d
      patternCheck n (.str "string") (.str v) d
      rangeCheck n (.str "string") (.str v) d : Except EngineError Unit) =
      (typeCheck n (.str "string") (.str v) >>= fun _ =>
        enumCheck n (.str v) d >>= fun _ =>
          patternCheck n (.str "string") (.str v) d >>= fun _ =>
            rangeCheck n (.str "string") (.str v) d) from rfl]
  rw [htc, ok_bind, enumCheck_none henum, ok_bind]
  have hpc : patternCheck n (.str "string") (.str v) d =
      (if (!pyReMatch pr v) then Except.error (.patternMismatch n p)
       else Except.ok ()) := by
    unfold patternCheck
    simp [hpat, hpr, typeIs, pyStr]
  rw [hpc]
  cases hm : pyReMatch pr v with
  | true => simp [hm, hrc]
  | false => simp [hm]

/-- Counterexample to C5 as stated: with pattern `[a-z]+`, the value
`"abc123"` is accepted although it does not match the regex in full
(only its prefix `"abc"` does). -/
theorem c5_not_full_match :
    validateParameter "p" (.str "abc123")
      [("type", .str "string"), ("description", .str "d"),
       ("pattern", .str "[a-z]+")] = .ok () ∧
    ∃ pr, parseRegex "[a-z]+" = some pr ∧ fullMatch pr "abc123" = false :=
  ⟨rfl, _, rfl, rfl⟩

/-- Witness for C5's amended theorem: the spec's own example pattern
`^[a-z]+$`, under which `"abc"` is accepted and `"ABC"` is not. -/
theorem c5_pattern_prefix_semantics_witness :
    ∃ pr, parseRegex "^[a-z]+$" = some pr ∧
      validateParameter "p" (.str "abc")
        [("type", .str "string"), ("description", .str "d"),
         ("pattern", .str "^[a-z]+$")] = .ok () ∧
      validateParameter "p" (.str "ABC")
        [("type", .str "string"), ("description", .str "d"),
         ("pattern", .str "^[a-z]+$")] ≠ .ok () :=
  ⟨_, rfl,
   (c5_pattern_prefix_semantics "p" "abc" "^[a-z]+$"
      [("type", .str "string"), ("description", .str "d"),
       ("pattern", .str "^[a-z]+$")] _ rfl rfl rfl rfl).mpr rfl,
   fun h => by
    have := (c5_pattern_prefix_semantics "p" "ABC" "^[a-z]+$"
      [("type", .str "string"), ("description", .str "d"),
       ("pattern", .str "^[a-z]+$")] _ rfl rfl rfl rfl).mp h
    exact absurd this (by decide)⟩

/-! ## C6 — reserved injected keys -/

/-- Failing input for C6: a schema-valid template declaring a parameter
named `template_name`, one of the engine's reserved injected keys, with
a user default. -/
def reservedMeta : AList :=
  [("name", .str "demo"), ("version", .str "1.0"),
   ("description", .str "a demo template"), ("category", .str "app"),
   ("parameters", .dict
     [("template_name", .dict
       [("type", .str "string"), ("description", .str "user-declared"),
        ("default", .str "my-custom-name")])])]

/-- Store holding only the template of `reservedMeta`. -/
def reservedParamStore : Store := fun p =>
  if p = "apps/demo" then some (.dict reservedMeta) else none

/-- C6: declaring a parameter named like a reserved injected key is not
rejected anywhere — parameter validation succeeds and binds the user's
default, and the injection step then silently overwrites it with the
engine's value (`demo`, the template name), with no error at any
point. -/
theorem c6_reserved_key_not_rejected :
    resolveInheritance reservedParamStore 3 "apps/demo" = .ok reservedMeta ∧
    prepareParams []
      [("template_name", .dict
        [("type", .str "string"), ("description", .str "user-declared"),
         ("default", .str "my-custom-name")])] =
      .ok [("template_name", .str "my-custom-name")] ∧
    finalParamsOf reservedMeta [] "2024-06-01T12:00:00" =
      .ok [("template_name", .str "demo"),
           ("template_version", .str "1.0"),
           ("generated_at", .str "2024-06-01T12:00:00"),
           ("generated_by", .str "container-template-engine")] ∧
    Value.str "demo" ≠ Value.str "my-custom-name" :=
  ⟨rfl, rfl, rfl, by simp⟩

/-! ## C7 — render failures -/

/-- C7 (amended): when a declared file fails to render (after any
earlier files rendered fine), the generation call raises the re-raised
`TemplateError` whose message names the failing file and the underlying
error — the template's path is not part of the constructed message —
and no output mapping is produced for the files after it, whatever
their render behaviour. -/
theorem c7_render_failure_aborts
    (ex : ExistsOracle) (renderF : RenderOracle) (tp out : String)
    (ctx : AList) (ps₁ ps₂ : List String) (p e : String)
    (hok : ∀ q ∈ ps₁, ex (tp ++ "/" ++ q) = true →
      ∃ s, renderF (tp ++ "/" ++ q) ctx = .ok s)
    (hex : ex (tp ++ "/" ++ p) = true)
    (hfail : renderF (tp ++ "/" ++ p) ctx = .error e) :
    renderPatterns ex renderF tp out ctx (ps₁ ++ p :: ps₂) =
      .error (.renderError ("Error rendering " ++ p ++ ": " ++ e)) := by
  induction ps₁ with
  | nil =>
    simp [renderPatterns, hex, hfail]
  | cons q tl ih =>
    have hok' : ∀ r ∈ tl, ex (tp ++ "/" ++ r) = true →
        ∃ s, renderF (tp ++ "/" ++ r) ctx = .ok s :=
      fun r hr => hok r (List.mem_cons_of_mem _ hr)
    cases hexq : ex (tp ++ "/" ++ q) with
    | true =>
      obtain ⟨s, hs⟩ := hok q (List.mem_cons_self _ _) hexq
      simp [renderPatterns, hexq, hs, ih hok']
    | false =>
      simp [renderPatterns, hexq, ih hok']

/-- Witness for C7's amended theorem: `base.txt` renders fine,
`Dockerfile` fails with an undefined-variable error, `ignored.txt`
comes after the failure. -/
theorem c7_render_failure_aborts_witness :
    renderPatterns (fun _ => true)
      (fun f _ => if f = "apps/web/Dockerfile" then
          .error "'app_name' is undefined" else .ok "content")
      "apps/web" "out" []
      (["base.txt"] ++ "Dockerfile" :: ["ignored.txt"]) =
      .error (.renderError
        "Error rendering Dockerfile: 'app_name' is undefined") :=
  c7_render_failure_aborts (fun _ => true)
    (fun f _ => if f = "apps/web/Dockerfile" then
        .error "'app_name' is undefined" else .ok "content")
    "apps/web" "out" [] ["base.txt"] ["ignored.txt"] "Dockerfile"
    "'app_name' is undefined"
    (by
      intro q hq hexq
      simp only [List.mem_singleton] at hq
      subst hq
      exact ⟨"content", rfl⟩)
    rfl rfl

/-- Concrete metadata for the C7 counterexample. -/
def c7Meta : AList :=
  [("name", .str "web"), ("version", .str "1.0"),
   ("description", .str "d"), ("category", .str "app"),
   ("files", .dict [("dockerfile", .str "Dockerfile")])]

/-- Store holding only the template of `c7Meta` under path `mytpl`. -/
def c7Store : Store := fun p =>
  if p = "mytpl" then some (.dict c7Meta) else none

/-- Counterexample to C7 as stated: the raised error's message is
`Error rendering Dockerfile: 'app_name' is undefined`, which names the
file but does not name the template (`mytpl` occurs nowhere in it). -/
theorem c7_error_does_not_name_template :
    generateTemplate c7Store (fun _ => true)
      (fun _ _ => .error "'app_name' is undefined")
      3 "mytpl" "out" [] "2024-06-01T12:00:00" =
      .error (.renderError
        "Error rendering Dockerfile: 'app_name' is undefined") ∧
    strContains "Error rendering Dockerfile: 'app_name' is undefined"
      "mytpl" = false ∧
    strContains "Error rendering Dockerfile: 'app_name' is undefined"
      "Dockerfile" = true :=
  ⟨rfl, by decide, by decide⟩

/-! ## C8 — deterministic rendering up to the timestamp -/

/-- The final parameter dicts produced at two timestamps agree once the
`generated_at` binding is removed (and the two runs fail identically
otherwise). -/
theorem finalParamsOf_timestamp (m provided : AList) (t₁ t₂ : String) :
    (∃ fp₁ fp₂, finalParamsOf m provided t₁ = .ok fp₁ ∧
       finalParamsOf m provided t₂ = .ok fp₂ ∧
       popKey fp₁ "generated_at" = popKey fp₂ "generated_at") ∨
    (∃ e, finalParamsOf m provided t₁ = .error e ∧
       finalParamsOf m provided t₂ = .error e) := by
  unfold finalParamsOf
  have hstep : ∀ (prepared : AList) (nv vv : Value) (t : String),
      popKey (alSet (alSet (alSet (alSet prepared "template_name" nv)
          "template_version" vv) "generated_at" (.str t))
          "generated_by" (.str "container-template-engine"))
        "generated_at" =
      alSet (popKey (alSet (alSet prepared "template_name" nv)
          "template_version" vv) "generated_at")
        "generated_by" (.str "container-template-engine") := by
    intro prepared nv vv t
    rw [popKey_alSet_other (by decide), popKey_alSet_self]
  cases hp : alGet m "parameters" with
  | none =>
    simp only [ok_bind]
    cases hpr : prepareParams provided [] with
    | error e => exact Or.inr ⟨e, rfl, rfl⟩
    | ok prepared =>
      simp only [ok_bind]
      cases hn : alGet m "name" with
      | none => exact Or.inr ⟨.keyError "name", rfl, rfl⟩
      | some nv =>
        simp only [ok_bind]
        cases hv : alGet m "version" with
        | none => exact Or.inr ⟨.keyError "version", rfl, rfl⟩
        | some vv =>
          simp only [ok_bind]
          exact Or.inl ⟨_, _, rfl, rfl, by rw [hstep, hstep]⟩
  | some pv =>
    cases pv with
    | dict ps =>
      simp only [ok_bind]
      cases hpr : prepareParams provided ps with
      | error e => exact Or.inr ⟨e, rfl, rfl⟩
      | ok prepared =>
        simp only [ok_bind]
        cases hn : alGet m "name" with
        | none => exact Or.inr ⟨.keyError "name", rfl, rfl⟩
        | some nv =>
          simp only [ok_bind]
          cases hv : alGet m "version" with
          | none => exact Or.inr ⟨.keyError "version", rfl, rfl⟩
          | some vv =>
            simp only [ok_bind]
            exact Or.inl ⟨_, _, rfl, rfl, by rw [hstep, hstep]⟩
    | str a => exact Or.inr ⟨_, rfl, rfl⟩
    | int a => exact Or.inr ⟨_, rfl, rfl⟩
    | bool a => exact Or.inr ⟨_, rfl, rfl⟩
    | list a => exact Or.inr ⟨_, rfl, rfl⟩

/-- Rendering the same patterns under two contexts the oracle cannot
tell apart yields the same result. -/
theorem renderPatterns_congr {ex : ExistsOracle} {renderF : RenderOracle}
    {tp out : String} {c₁ c₂ : AList}
    (h : ∀ f, renderF f c₁ = renderF f c₂) :
    ∀ ps, renderPatterns ex renderF tp out c₁ ps =
      renderPatterns ex renderF tp out c₂ ps := by
  intro ps
  induction ps with
  | nil => rfl
  | cons p tl ih =>
    by_cases hex : ex (tp ++ "/" ++ p)
    · simp only [renderPatterns, hex, if_true, h (tp ++ "/" ++ p)]
      cases renderF (tp ++ "/" ++ p) c₂ <;> simp [ih]
    · simp [renderPatterns, hex, ih]

/-- The file-group loop under two oracle-indistinguishable contexts. -/
theorem renderFiles_congr {ex : ExistsOracle} {renderF : RenderOracle}
    {tp out : String} {c₁ c₂ : AList}
    (h : ∀ f, renderF f c₁ = renderF f c₂) :
    ∀ gs, renderFiles ex renderF tp out c₁ gs =
      renderFiles ex renderF tp out c₂ gs := by
  intro gs
  induction gs with
  | nil => rfl
  | cons g tl ih =>
    obtain ⟨_, fv⟩ := g
    unfold renderFiles
    cases toPatterns fv with
    | error e => rfl
    | ok pats =>
      simp only [ok_bind]
      rw [renderPatterns_congr h pats]
      cases renderPatterns ex renderF tp out c₂ pats <;> simp [ih]

/-- C8: for a render oracle that does not depend on the injected
`generated_at` value (it cannot distinguish contexts that agree after
removing that key), two generation runs with identical template,
parameters and oracles but different timestamps produce identical
results — generation is a deterministic function of the template and
the final parameters, timestamp excluded. -/
theorem c8_generation_deterministic
    (store : Store) (ex : ExistsOracle) (renderF : RenderOracle)
    (fuel : Nat) (tp out : String) (provided : AList) (t₁ t₂ : String)
    (hrender : ∀ f c₁ c₂,
      popKey c₁ "generated_at" = popKey c₂ "generated_at" →
      renderF f c₁ = renderF f c₂) :
    generateTemplate store ex renderF fuel tp out provided t₁ =
      generateTemplate store ex renderF fuel tp out provided t₂ := by
  unfold generateTemplate
  cases hres : resolveInheritance store fuel tp with
  | error e => rfl
  | ok m =>
    simp only [ok_bind]
    rcases finalParamsOf_timestamp m provided t₁ t₂ with
      ⟨fp₁, fp₂, h₁, h₂, hpop⟩ | ⟨e, h₁, h₂⟩
    · rw [h₁, h₂]
      simp only [ok_bind]
      cases (alGet m "files").getD (.dict []) with
      | dict groups => exact renderFiles_congr (fun f => hrender f fp₁ fp₂ hpop) groups
      | str a => rfl
      | int a => rfl
      | bool a => rfl
      | list a => rfl
    · rw [h₁, h₂]

/-- Concrete metadata for the C8 witness. -/
def c8Meta : AList :=
  [("name", .str "det"), ("version", .str "1.0"),
   ("description", .str "d"), ("category", .str "app"),
   ("files", .dict [("dockerfile", .str "Dockerfile")])]

/-- Store holding only the template of `c8Meta`. -/
def c8Store : Store := fun p =>
  if p = "det" then some (.dict c8Meta) else none

/-- Witness for C8: a render oracle that ignores the context entirely,
run at two different timestamps. -/
theorem c8_generation_deterministic_witness :
    generateTemplate c8Store (fun _ => true)
      (fun f _ => .ok ("rendered " ++ f)) 3 "det" "out" []
      "2024-01-01T00:00:00" =
    generateTemplate c8Store (fun _ => true)
      (fun f _ => .ok ("rendered " ++ f)) 3 "det" "out" []
      "2025-12-31T23:59:59" :=
  c8_generation_deterministic c8Store (fun _ => true)
    (fun f _ => .ok ("rendered " ++ f)) 3 "det" "out" []
    "2024-01-01T00:00:00" "2025-12-31T23:59:59"
    (fun _ _ _ _ => rfl)

/-! ## C9 — `validate_template` aggregates all defects -/

/-- The flattened pattern list both loops of `validate_template`
traverse, failing where the loops would on a malformed group. -/
def collectPatterns : List (String × Value) → Except EngineError (List String)
  | [] => .ok []
  | (_, fv) :: rest => do
    let ps ← toPatterns fv
    let rest' ← collectPatterns rest
    .ok (ps ++ rest')

/-- The missing-file errors the first loop records, in traversal
order: one per declared pattern whose file does not exist. -/
def missingMsgs (ex : ExistsOracle) (tp : String) (P : List String) :
    List String :=
  (P.filter (fun p => !ex (tp ++ "/" ++ p))).map
    (fun p => "Required file missing: " ++ p)

/-- The render errors the second loop records, in traversal order: one
per existing pattern whose render fails. -/
def renderMsgs (renderD : RenderOracle) (ex : ExistsOracle) (tp : String)
    (dflt : AList) (P : List String) : List String :=
  P.filterMap (fun p =>
    if ex (tp ++ "/" ++ p) then
      match renderD (tp ++ "/" ++ p) dflt with
      | .ok _ => none
      | .error e => some ("Template syntax error in " ++ p ++ ": " ++ e)
    else none)

theorem isEmpty_append (a b : List String) :
    (a ++ b).isEmpty = (a.isEmpty && b.isEmpty) := by
  cases a <;> simp

theorem missingInner_eq (ex : ExistsOracle) (tp : String)
    (ps : List String) (errs : List String) (val : Bool) :
    missingInner ex tp ps errs val =
      (errs ++ missingMsgs ex tp ps,
       val && (missingMsgs ex tp ps).isEmpty) := by
  induction ps generalizing errs val with
  | nil => simp [missingInner, missingMsgs]
  | cons p ps ih =>
    cases hex : ex (tp ++ "/" ++ p) with
    | true => simp [missingInner, missingMsgs, hex, ih]
    | false =>
      simp only [missingInner, hex, Bool.false_eq_true, if_false, ih]
      simp [missingMsgs, hex]

theorem missingPhase_eq (ex : ExistsOracle) (tp : String)
    {gs : List (String × Value)} {P : List String}
    (hP : collectPatterns gs = .ok P) (errs : List String) (val : Bool) :
    missingPhase ex tp gs errs val =
      (errs ++ missingMsgs ex tp P,
       val && (missingMsgs ex tp P).isEmpty, none) := by
  induction gs generalizing P errs val with
  | nil =>
    simp only [collectPatterns] at hP
    rw [Except.ok.injEq] at hP
    subst hP
    simp [missingPhase, missingMsgs]
  | cons g rest ih =>
    obtain ⟨gn, fv⟩ := g
    cases hps : toPatterns fv with
    | error e => simp [collectPatterns, hps] at hP
    | ok ps =>
      simp only [collectPatterns, hps, ok_bind] at hP
      cases hr : collectPatterns rest with
      | error e => simp [hr] at hP
      | ok rest' =>
        simp only [hr, ok_bind] at hP
        rw [Except.ok.injEq] at hP
        subst hP
        simp only [missingPhase, hps, missingInner_eq]
        rw [ih hr]
        simp [missingMsgs, List.filter_append, isEmpty_append,
          Bool.and_assoc, List.append_assoc]

theorem renderInner_eq (renderD : RenderOracle) (ex : ExistsOracle)
    (tp : String) {m dflt : AList}
    (hdflt : defaultParamsOf m = .ok dflt)
    (ps : List String) (errs : List String) (val : Bool) :
    renderInner renderD ex tp m ps errs val =
      (errs ++ renderMsgs renderD ex tp dflt ps,
       val && (renderMsgs renderD ex tp dflt ps).isEmpty, none) := by
  induction ps generalizing errs val with
  | nil => simp [renderInner, renderMsgs]
  | cons p ps ih =>
    cases hex : ex (tp ++ "/" ++ p) with
    | true =>
      cases hrd : renderD (tp ++ "/" ++ p) dflt with
      | ok c =>
        simp only [renderInner, hex, if_true, hdflt, hrd, ih]
        simp [renderMsgs, hex, hrd]
      | error e =>
        simp only [renderInner, hex, if_true, hdflt, hrd, ih]
        simp [renderMsgs, hex, hrd]
    | false =>
      simp only [renderInner, hex, Bool.false_eq_true, if_false, ih]
      simp [renderMsgs, hex]

theorem renderPhase_eq (renderD : RenderOracle) (ex : ExistsOracle)
    (tp : String) {m dflt : AList} {gs : List (String × Value)}
    {P : List String}
    (hdflt : defaultParamsOf m = .ok dflt)
    (hP : collectPatterns gs = .ok P) (errs : List String) (val : Bool) :
    renderPhase renderD ex tp m gs errs val =
      (errs ++ renderMsgs renderD ex tp dflt P,
       val && (renderMsgs renderD ex tp dflt P).isEmpty, none) := by
  induction gs generalizing P errs val with
  | nil =>
    simp only [collectPatterns] at hP
    rw [Except.ok.injEq] at hP
    subst hP
    simp [renderPhase, renderMsgs]
  | cons g rest ih =>
    obtain ⟨gn, fv⟩ := g
    cases hps : toPatterns fv with
    | error e => simp [collectPatterns, hps] at hP
    | ok ps =>
      simp only [collectPatterns, hps, ok_bind] at hP
      cases hr : collectPatterns rest with
      | error e => simp [hr] at hP
      | ok rest' =>
        simp only [hr, ok_bind] at hP
        rw [Except.ok.injEq] at hP
        subst hP
        simp only [renderPhase, hps, renderInner_eq renderD ex tp hdflt]
        rw [ih hr]
        simp [renderMsgs, List.filterMap_append, isEmpty_append,
          Bool.and_assoc, List.append_assoc]

/-- C9: when the template resolves and its declared files flatten to
the pattern list `P`, one `validate_template` call returns *exactly*
one `Required file missing` error per pattern absent on disk, plus one
`Template syntax error` per existing pattern whose default-parameter
render fails — every declared file that exists is render-attempted, no
error short-circuits the traversal, and `valid` is cleared exactly when
some error was recorded. -/
theorem c9_validate_collects_all_errors
    (store : Store) (ex : ExistsOracle) (renderD : RenderOracle)
    (fuel : Nat) (tp : String) (m dflt : AList)
    (gs : List (String × Value)) (P : List String)
    (hres : resolveInheritance store fuel tp = .ok m)
    (hfiles : alGet m "files" = some (.dict gs))
    (hP : collectPatterns gs = .ok P)
    (hdflt : defaultParamsOf m = .ok dflt) :
    validateBody store ex renderD fuel tp =
      ({ valid := (missingMsgs ex tp P ++
            renderMsgs renderD ex tp dflt P).isEmpty,
         errors := missingMsgs ex tp P ++ renderMsgs renderD ex tp dflt P,
         warnings := [], metadata := some m }, none) := by
  unfold validateBody validateBodyAfter
  simp only [hres, hfiles, Option.getD_some, missingPhase_eq ex tp hP,
    renderPhase_eq renderD ex tp hdflt hP, List.nil_append]
  simp [isEmpty_append]

/-- Concrete metadata for the C9 witness: three declared files. -/
def c9Meta : AList :=
  [("name", .str "v"), ("version", .str "1.0"),
   ("description", .str "d"), ("category", .str "app"),
   ("files", .dict
     [("dockerfile", .str "Dockerfile"),
      ("config", .list [.str "present.txt", .str "broken.txt"])])]

/-- Store holding only the template of `c9Meta`. -/
def c9Store : Store := fun p =>
  if p = "v" then some (.dict c9Meta) else none

/-- Witness for C9: `present.txt` is missing on disk, `broken.txt`
exists but fails to render; the call reports exactly the one
missing-file error and the one render error, and still renders
`Dockerfile`. -/
theorem c9_validate_collects_all_errors_witness :
    validateBody c9Store
      (fun f => !(f = "v/present.txt"))
      (fun f _ => if f = "v/broken.txt" then
        .error "unexpected end of template" else .ok "content")
      3 "v" =
      ({ valid := false,
         errors := ["Required file missing: present.txt",
           "Template syntax error in broken.txt: unexpected end of template"],
         warnings := [], metadata := some c9Meta }, none) :=
  c9_validate_collects_all_errors c9Store
    (fun f => !(f = "v/present.txt"))
    (fun f _ => if f = "v/broken.txt" then
      .error "unexpected end of template" else .ok "content")
    3 "v" c9Meta []
    [("dockerfile", .str "Dockerfile"),
     ("config", .list [.str "present.txt", .str "broken.txt"])]
    ["Dockerfile", "present.txt", "broken.txt"]
    rfl rfl rfl rfl

/-! ## C10 — `validate_template` converts every failure into a result -/

theorem isEmpty_true_iff (l : List String) : l.isEmpty = true ↔ l = [] := by
  cases l <;> simp

/-- Whatever happens (including a mid-loop exception), the first loop
only appends errors and clears `valid` exactly when it appended. -/
theorem missingPhase_delta (ex : ExistsOracle) (tp : String)
    (gs : List (String × Value)) (errs : List String) (val : Bool) :
    ∃ Δ exc, missingPhase ex tp gs errs val =
      (errs ++ Δ, val && Δ.isEmpty, exc) := by
  induction gs generalizing errs val with
  | nil => exact ⟨[], none, by simp [missingPhase]⟩
  | cons g rest ih =>
    obtain ⟨gn, fv⟩ := g
    cases hps : toPatterns fv with
    | error e => exact ⟨[], some e, by simp [missingPhase, hps]⟩
    | ok ps =>
      obtain ⟨Δ, exc, h⟩ := ih (errs ++ missingMsgs ex tp ps)
        (val && (missingMsgs ex tp ps).isEmpty)
      refine ⟨missingMsgs ex tp ps ++ Δ, exc, ?_⟩
      simp [missingPhase, hps, missingInner_eq, h, isEmpty_append,
        Bool.and_assoc]

/-- Same property for the per-pattern render loop. -/
theorem renderInner_delta (renderD : RenderOracle) (ex : ExistsOracle)
    (tp : String) (m : AList) (ps : List String)
    (errs : List String) (val : Bool) :
    ∃ Δ exc, renderInner renderD ex tp m ps errs val =
      (errs ++ Δ, val && Δ.isEmpty, exc) := by
  induction ps generalizing errs val with
  | nil => exact ⟨[], none, by simp [renderInner]⟩
  | cons p ps ih =>
    cases hex : ex (tp ++ "/" ++ p) with
    | false =>
      obtain ⟨Δ, exc, h⟩ := ih errs val
      exact ⟨Δ, exc, by simp [renderInner, hex, h]⟩
    | true =>
      cases hd : defaultParamsOf m with
      | error e => exact ⟨[], some e, by simp [renderInner, hex, hd]⟩
      | ok dflt =>
        cases hrd : renderD (tp ++ "/" ++ p) dflt with
        | ok c =>
          obtain ⟨Δ, exc, h⟩ := ih errs val
          exact ⟨Δ, exc, by simp [renderInner, hex, hd, hrd, h]⟩
        | error e =>
          obtain ⟨Δ, exc, h⟩ :=
            ih (errs ++ ["Template syntax error in " ++ p ++ ": " ++ e]) false
          refine ⟨("Template syntax error in " ++ p ++ ": " ++ e) :: Δ,
            exc, ?_⟩
          simp [renderInner, hex, hd, hrd, h, isEmpty_append]

/-- Same property for the render loop over file groups. -/
theorem renderPhase_delta (renderD : RenderOracle) (ex : ExistsOracle)
    (tp : String) (m : AList) (gs : List (String × Value))
    (errs : List String) (val : Bool) :
    ∃ Δ exc, renderPhase renderD ex tp m gs errs val =
      (errs ++ Δ, val && Δ.isEmpty, exc) := by
  induction gs generalizing errs val with
  | nil => exact ⟨[], none, by simp [renderPhase]⟩
  | cons g rest ih =>
    obtain ⟨gn, fv⟩ := g
    cases hps : toPatterns fv with
    | error e => exact ⟨[], some e, by simp [renderPhase, hps]⟩
    | ok ps =>
      obtain ⟨Δ₁, exc₁, h₁⟩ := renderInner_delta renderD ex tp m ps errs val
      cases exc₁ with
      | some e =>
        exact ⟨Δ₁, some e, by simp [renderPhase, hps, h₁]⟩
      | none =>
        obtain ⟨Δ₂, exc₂, h₂⟩ := ih (errs ++ Δ₁) (val && Δ₁.isEmpty)
        refine ⟨Δ₁ ++ Δ₂, exc₂, ?_⟩
        simp [renderPhase, hps, h₁, h₂, isEmpty_append, Bool.and_assoc]

/-- Inside the post-resolution body, `valid` is exactly "no error
recorded". -/
theorem validateBodyAfter_valid_iff (ex : ExistsOracle)
    (renderD : RenderOracle) (tp : String) (m : AList) :
    (validateBodyAfter ex renderD tp m).1.valid =
      (validateBodyAfter ex renderD tp m).1.errors.isEmpty := by
  unfold validateBodyAfter
  cases hfv : (alGet m "files").getD (.dict []) with
  | str a => rfl
  | int a => rfl
  | bool a => rfl
  | list a => rfl
  | dict groups =>
    obtain ⟨Δ₁, exc₁, h₁⟩ := missingPhase_delta ex tp groups [] true
    simp only [h₁]
    cases exc₁ with
    | some e => simp
    | none =>
      obtain ⟨Δ₂, exc₂, h₂⟩ :=
        renderPhase_delta renderD ex tp m groups
          (([] : List String) ++ Δ₁) (true && Δ₁.isEmpty)
      simp only [h₂]
      simp [isEmpty_append, Bool.and_assoc]

/-- Inside the `try` body, `valid` is exactly "no error recorded". -/
theorem validateBody_valid_iff (store : Store) (ex : ExistsOracle)
    (renderD : RenderOracle) (fuel : Nat) (tp : String) :
    (validateBody store ex renderD fuel tp).1.valid =
      (validateBody store ex renderD fuel tp).1.errors.isEmpty := by
  unfold validateBody
  cases hres : resolveInheritance store fuel tp with
  | error e => rfl
  | ok m => exact validateBodyAfter_valid_iff ex renderD tp m

/-- C10: `validate_template` always returns a result dict — `valid`
holds exactly when `errors` is empty, and any exception escaping the
body (resolution failure, malformed metadata, default-collection
failure) is caught and recorded as a `Template validation failed`
entry with `valid` cleared, never propagated. -/
theorem c10_validate_total
    (store : Store) (ex : ExistsOracle) (renderD : RenderOracle)
    (fuel : Nat) (tp : String) :
    ((validateTemplate store ex renderD fuel tp).valid = true ↔
      (validateTemplate store ex renderD fuel tp).errors = []) ∧
    (∀ e, (validateBody store ex renderD fuel tp).2 = some e →
      (validateTemplate store ex renderD fuel tp).valid = false ∧
      ("Template validation failed: " ++ errMsg e) ∈
        (validateTemplate store ex renderD fuel tp).errors) := by
  have hinv := validateBody_valid_iff store ex renderD fuel tp
  unfold validateTemplate
  cases hb : validateBody store ex renderD fuel tp with
  | mk r exc =>
    rw [hb] at hinv
    cases exc with
    | none =>
      refine ⟨?_, ?_⟩
      · rw [hinv]
        exact isEmpty_true_iff r.errors
      · intro e he
        simp at he
    | some e' =>
      refine ⟨?_, ?_⟩
      · simp
      · intro e he
        simp only [Option.some.injEq] at he
        subst he
        exact ⟨rfl, List.mem_append_right _ (by simp)⟩

/-- Witness for C10: a path absent from the store makes the body throw
`FileNotFoundError`; the returned result converts it into an entry. -/
theorem c10_validate_total_witness :
    (validateBody (fun _ => none) (fun _ => true) (fun _ _ => .ok "")
      3 "ghost").2 = some (.fileNotFound "ghost") ∧
    (validateTemplate (fun _ => none) (fun _ => true) (fun _ _ => .ok "")
      3 "ghost").valid = false ∧
    ("Template validation failed: " ++ errMsg (.fileNotFound "ghost")) ∈
      (validateTemplate (fun _ => none) (fun _ => true) (fun _ _ => .ok "")
        3 "ghost").errors :=
  ⟨rfl,
   ((c10_validate_total (fun _ => none) (fun _ => true) (fun _ _ => .ok "")
      3 "ghost").2 (.fileNotFound "ghost") rfl).1,
   ((c10_validate_total (fun _ => none) (fun _ => true) (fun _ _ => .ok "")
      3 "ghost").2 (.fileNotFound "ghost") rfl).2⟩

end TemplateEngine
